import Mathlib

/-
Verification of the api-listener microservice
(src/microservices/api-listener/src): the webhook pipeline consisting of
the payload validator (core/message_manager.py), the AI extraction engine
(core/ai_processor.py), the Google Sheets persistence gateway
(core/gsheets_client.py) and the Flask orchestrator (main.py).

Modelling conventions:
- Python runtime values that arise from JSON payloads are modelled by the
  inductive type PyVal (None, bool, int, str, list, dict). JSON floats do
  not occur in any decision made by this code, so numbers are Int.
- A Python dict is an association list with the insertion order of the
  source literal; dicts built by the code never repeat a key.
- A raised Python exception is an Except.error; a try/except handler is a
  match on the Except value. Calls into external libraries (genai,
  json.loads, gspread) are boundaries: their outcomes are explicit inputs.
-/

namespace WABot

set_option autoImplicit false

/-- A Python value as produced by JSON deserialization (None, bool, int,
str, list, dict). -/
inductive PyVal where
  | none
  | bool (b : Bool)
  | int (n : Int)
  | str (s : String)
  | list (xs : List PyVal)
  | dict (kvs : List (String × PyVal))

/-- First value stored under key k in an association-list dict, if any.
Python dicts have unique keys, so first-match agrees with dict lookup. -/
def dictFind : List (String × PyVal) → String → Option PyVal
  | [], _ => Option.none
  | (k', v) :: rest, k => if k' = k then some v else dictFind rest k

/-- Python d.get(k): the stored value, or None when the key is absent. -/
def dictGet (kvs : List (String × PyVal)) (k : String) : PyVal :=
  (dictFind kvs k).getD PyVal.none

/-- Python v.get(k, default) on an arbitrary value: AttributeError
(Except.error) when v is not a dict. -/
def pyGetD (v : PyVal) (k : String) (d : PyVal) : Except Unit PyVal :=
  match v with
  | PyVal.dict kvs => Except.ok ((dictFind kvs k).getD d)
  | _ => Except.error ()

/-- Python v.get(k) on an arbitrary value: AttributeError when v is not a
dict, None when the key is absent. -/
def pyGet (v : PyVal) (k : String) : Except Unit PyVal :=
  match v with
  | PyVal.dict kvs => Except.ok (dictGet kvs k)
  | _ => Except.error ()

/-- Python truthiness (bool(v)) of a JSON-shaped value. -/
def truthy : PyVal → Bool
  | PyVal.none => false
  | PyVal.bool b => b
  | PyVal.int n => n != 0
  | PyVal.str s => s != ""
  | PyVal.list xs => !xs.isEmpty
  | PyVal.dict kvs => !kvs.isEmpty

/-- Python v == s for a string literal s: true exactly when v is an equal
string (JSON values of other types never compare equal to a str). -/
def pyEqStr (v : PyVal) (s : String) : Bool :=
  match v with
  | PyVal.str t => t == s
  | _ => false

/-- Python v is None. -/
def isPyNone : PyVal → Bool
  | PyVal.none => true
  | _ => false

/-- Python x or y (used as field or ""): x when truthy, else y. -/
def pyOr (x y : PyVal) : PyVal :=
  if truthy x then x else y

/-! ## Payload validator: core/message_manager.py, process_message -/

/-- The hard-coded target group id of message_manager.py (line 34). -/
def target_group_id : String := "120363403986445201@g.us"

/-- The body of the try block of process_message (message_manager.py lines
26-53): each nested .get can raise AttributeError when the receiver is not
a dict; the three checks short-circuit to None. -/
def process_message_body (payload : PyVal) : Except Unit (Option PyVal) :=
  match pyGetD payload "data" (PyVal.dict []) with
  | Except.error e => Except.error e
  | Except.ok data =>
    match pyGetD data "key" (PyVal.dict []) with
    | Except.error e => Except.error e
    | Except.ok key =>
      match pyGetD data "message" (PyVal.dict []) with
      | Except.error e => Except.error e
      | Except.ok message =>
        match pyGet key "remoteJid" with
        | Except.error e => Except.error e
        | Except.ok remote_jid =>
          if pyEqStr remote_jid target_group_id = false then
            Except.ok Option.none
          else
            match pyGet key "participantLid" with
            | Except.error e => Except.error e
            | Except.ok participant_lid =>
              if isPyNone participant_lid then Except.ok Option.none
              else
                match pyGet message "conversation" with
                | Except.error e => Except.error e
                | Except.ok conversation =>
                  if isPyNone conversation then Except.ok Option.none
                  else Except.ok (some conversation)

/-- process_message (message_manager.py lines 10-57): the try/except
around the body turns any exception into the None outcome. -/
def process_message (payload : PyVal) : Option PyVal :=
  match process_message_body payload with
  | Except.ok r => r
  | Except.error _ => Option.none

/-! ## Extraction engine: core/ai_processor.py, extract_user_data_with_ai

The genai call (client init + generate_content + response.text.strip, lines
44-58) is a boundary: its outcome is either an exception caught by the
outer handler (line 80) or a raw reply text. json.loads (line 63) is a
boundary too, modelled as an arbitrary parse function String -> Option
PyVal, Option.none standing for json.JSONDecodeError. -/

/-- Outcome of the genai call: an exception while reaching or using the AI
capability, or a raw textual reply. -/
inductive AIOutcome where
  | failure
  | reply (text : String)

/-- A character stripped by Python str.strip(): ASCII whitespace. -/
def isSpaceChar (c : Char) : Bool :=
  c = ' ' || c = '\t' || c = '\n' || c = '\r' || c = '\x0b' || c = '\x0c'

/-- Drop leading and trailing whitespace characters. -/
def stripChars (l : List Char) : List Char :=
  ((l.dropWhile isSpaceChar).reverse.dropWhile isSpaceChar).reverse

/-- Python str.strip() (response.text.strip(), ai_processor.py line 58). -/
def pyStrip (s : String) : String :=
  String.mk (stripChars s.data)

/-- default_response of ai_processor.py lines 38-42. -/
def default_response : List (String × PyVal) :=
  [("full_name", PyVal.none), ("phone_number", PyVal.none),
   ("id_document", PyVal.none)]

/-- extract_user_data_with_ai (ai_processor.py lines 19-82). On an AI
failure the outer except returns default_response; on a reply the text is
stripped and parsed; JSONDecodeError returns default_response; a parsed
non-dict makes .get raise AttributeError, which the outer except also
turns into default_response; a parsed dict is projected onto the three
keys with .get (absent key becomes None), lines 66-70. -/
def extract_user_data_with_ai (parse : String → Option PyVal)
    (outcome : AIOutcome) : List (String × PyVal) :=
  match outcome with
  | AIOutcome.failure => default_response
  | AIOutcome.reply text =>
    match parse (pyStrip text) with
    | Option.none => default_response
    | some v =>
      match v with
      | PyVal.dict kvs =>
        [("full_name", dictGet kvs "full_name"),
         ("phone_number", dictGet kvs "phone_number"),
         ("id_document", dictGet kvs "id_document")]
      | _ => default_response

/-- The keys of a result dict, in insertion order. -/
def resultKeys (r : List (String × PyVal)) : List String :=
  r.map Prod.fst

/-- The value contract of the spec for extraction results: a non-empty
string, or the unknown marker (null). -/
def nonEmptyStrOrNull : PyVal → Bool
  | PyVal.none => true
  | PyVal.str s => s != ""
  | _ => false

/-! ## Persistence gateway: core/gsheets_client.py, GSheetsClient

An authenticated handle is a Spreadsheet value: the open spreadsheet with
its named worksheets. __init__ (env vars, credentials, gspread.authorize,
client.open) is a boundary; its outcome is an input of the orchestrator
model below. A worksheet is its grid of rows; gspread append_row adds a
row at the end, insert_row(r, 1) puts it first, row_values(1) reads the
first row (empty list when the sheet has no data). -/

/-- A worksheet: the list of its rows. -/
structure Worksheet where
  rows : List (List PyVal)

/-- An open spreadsheet: its name and its titled worksheets in order. -/
structure Spreadsheet where
  name : String
  worksheets : List (String × Worksheet)

/-- Index of the first worksheet with the given title. -/
def findTitleIdx : List (String × Worksheet) → String → Option Nat
  | [], _ => Option.none
  | (n, _) :: rest, t =>
    if n = t then some 0 else (findTitleIdx rest t).map (· + 1)

/-- The worksheet at position i, if any. -/
def nthWs : List (String × Worksheet) → Nat → Option Worksheet
  | [], _ => Option.none
  | x :: _, 0 => some x.2
  | _ :: xs, n + 1 => nthWs xs n

/-- Replace the worksheet at position i by f of it, keeping its title. -/
def updateAt : List (String × Worksheet) → Nat → (Worksheet → Worksheet) →
    List (String × Worksheet)
  | [], _, _ => []
  | x :: xs, 0, f => (x.1, f x.2) :: xs
  | x :: xs, n + 1, f => x :: updateAt xs n f

/-- The ValueError message raised by get_worksheet (gsheets_client.py line
76); str(None) is the text None. -/
def wsNotFoundMsg (title : Option String) (sheetName : String) : String :=
  "Worksheet '" ++ (match title with | some t => t | Option.none => "None")
    ++ "' not found in the sheet '" ++ sheetName ++ "'."

/-- get_worksheet (gsheets_client.py lines 60-76): a given title is looked
up by name, otherwise the first worksheet is used; any failure is
re-raised as ValueError. The result is the index of the resolved
worksheet. -/
def get_worksheet (s : Spreadsheet) (title : Option String) :
    Except String Nat :=
  match title with
  | some t =>
    match findTitleIdx s.worksheets t with
    | some i => Except.ok i
    | Option.none => Except.error (wsNotFoundMsg (some t) s.name)
  | Option.none =>
    if s.worksheets.isEmpty then
      Except.error (wsNotFoundMsg Option.none s.name)
    else Except.ok 0

/-! ### Timestamps: datetime.now().strftime of gsheets_client.py line 111 -/

/-- A wall-clock instant with second precision. -/
structure DateTime where
  year : Nat
  month : Nat
  day : Nat
  hour : Nat
  minute : Nat
  second : Nat

/-- Zero-padded two-digit rendering (%m, %d, %H, %M, %S). -/
def pad2 (n : Nat) : String :=
  if n < 10 then "0" ++ toString n else toString n

/-- Zero-padded four-digit rendering (%Y). Splitting at hundreds gives
exactly the zero-padded decimal form for every year. -/
def pad4 (n : Nat) : String :=
  pad2 (n / 100) ++ pad2 (n % 100)

/-- strftime of the fixed format string of gsheets_client.py line 111:
year-month-day space hour:minute:second, every component zero-padded. -/
def strftime_ymd_hms (t : DateTime) : String :=
  pad4 t.year ++ "-" ++ pad2 t.month ++ "-" ++ pad2 t.day ++ " " ++
    pad2 t.hour ++ ":" ++ pad2 t.minute ++ ":" ++ pad2 t.second

/-- Python field or "" of gsheets_client.py lines 114-116. -/
def renderField (v : PyVal) : PyVal :=
  pyOr v (PyVal.str "")

/-- row_data of gsheets_client.py lines 112-117. -/
def buildRow (t : DateTime) (full_name phone_number id_document : PyVal) :
    List PyVal :=
  [PyVal.str (strftime_ymd_hms t), renderField full_name,
   renderField phone_number, renderField id_document]

/-- The truthiness test any([full_name, phone_number, id_document]) of
gsheets_client.py line 103. -/
def anySignal (data : List (String × PyVal)) : Bool :=
  truthy (dictGet data "full_name") || truthy (dictGet data "phone_number")
    || truthy (dictGet data "id_document")

/-- Append one row at the end of a worksheet (gspread append_row). -/
def appendRow (row : List PyVal) (w : Worksheet) : Worksheet :=
  Worksheet.mk (w.rows ++ [row])

/-- insert_user_data (gsheets_client.py lines 78-127): read the three
fields with .get; skip (False) when none is truthy; otherwise resolve the
worksheet, build the timestamped row and append it (True). The except
block re-raises, so worksheet errors propagate. -/
def insert_user_data (s : Spreadsheet) (data : List (String × PyVal))
    (title : Option String) (t : DateTime) :
    Except String (Bool × Spreadsheet) :=
  if anySignal data = false then Except.ok (false, s)
  else
    match get_worksheet s title with
    | Except.error e => Except.error e
    | Except.ok i =>
      let row := buildRow t (dictGet data "full_name")
        (dictGet data "phone_number") (dictGet data "id_document")
      Except.ok (true, Spreadsheet.mk s.name (updateAt s.worksheets i (appendRow row)))

/-- The fixed header row of gsheets_client.py line 150. -/
def headers : List PyVal :=
  [PyVal.str "Timestamp", PyVal.str "Full Name", PyVal.str "Phone Number",
   PyVal.str "ID Document"]

/-- ws.row_values(1): the first row, the empty list when there is none. -/
def row_values1 (w : Worksheet) : List PyVal :=
  w.rows.headD []

/-- The per-worksheet part of setup_worksheet_headers (gsheets_client.py
lines 140-151): keep the sheet untouched when the first row has content,
otherwise put the header row first. -/
def setup_ws (w : Worksheet) : Worksheet :=
  if (row_values1 w).isEmpty then Worksheet.mk (headers :: w.rows) else w

/-- setup_worksheet_headers (gsheets_client.py lines 129-157): resolve the
worksheet (errors re-raised), then ensure headers as in setup_ws. -/
def setup_worksheet_headers (s : Spreadsheet) (title : Option String) :
    Except String Spreadsheet :=
  match get_worksheet s title with
  | Except.error e => Except.error e
  | Except.ok i =>
    Except.ok (Spreadsheet.mk s.name (updateAt s.worksheets i setup_ws))

/-- validate_extracted_data (gsheets_client.py lines 159-180): the
argument must be a dict and contain the three required keys; values are
not inspected. -/
def validate_extracted_data (v : PyVal) : Bool :=
  match v with
  | PyVal.dict kvs =>
    (dictFind kvs "full_name").isSome &&
      (dictFind kvs "phone_number").isSome &&
      (dictFind kvs "id_document").isSome
  | _ => false

/-! ## Orchestrator: main.py, webhook_handler

Boundaries made explicit inputs: request.get_json() (Option PyVal, none
when no JSON body), the genai call (an AIOutcome per message content),
json.loads (the parse function), GSheetsClient() construction (success
with an open Spreadsheet, or a raised exception message), and the wall
clock. The model also records which external capabilities the handler
invokes, so that the absence of AI/store calls is a provable fact. -/

/-- An external capability invocation made by the handler. -/
inductive Call where
  | ai (message : PyVal)
  | store

/-- What the handler hands to the transport layer: the HTTP status, the
JSON body (a dict), and the trace of external calls it made. -/
structure HandlerOutput where
  status : Nat
  body : List (String × PyVal)
  calls : List Call

/-- The 400 body of main.py lines 41-47. -/
def no_payload_body : List (String × PyVal) :=
  [("error", PyVal.str "No JSON payload received"),
   ("full_name", PyVal.none), ("phone_number", PyVal.none),
   ("id_document", PyVal.none), ("saved_to_sheets", PyVal.bool false)]

/-- The ignored-outcome body of main.py lines 53-59. -/
def ignored_body : List (String × PyVal) :=
  [("error", PyVal.str "Message does not meet processing criteria"),
   ("full_name", PyVal.none), ("phone_number", PyVal.none),
   ("id_document", PyVal.none), ("saved_to_sheets", PyVal.bool false)]

/-- The success body of main.py lines 82-91: the fixed entries, the
spread of extracted_data, and sheets_error appended when present. -/
def success_body (message_content : PyVal) (saved : Bool)
    (extracted : List (String × PyVal)) (sheets_error : Option String) :
    List (String × PyVal) :=
  [("success", PyVal.bool true), ("message_content", message_content),
   ("saved_to_sheets", PyVal.bool saved)] ++ extracted ++
    (match sheets_error with
     | some e => [("sheets_error", PyVal.str e)]
     | Option.none => [])

/-- webhook_handler (main.py lines 26-107): guard against a missing or
falsy payload (400), validate with process_message (ignored outcome on
None), call the AI extraction, then attempt the sheets client inside its
own try/except; sheet failures become sheets_error in a 200 response. -/
def webhook_handler (parse : String → Option PyVal)
    (ai : PyVal → AIOutcome) (sheetsInit : Except String Spreadsheet)
    (t : DateTime) (payload : Option PyVal) : HandlerOutput :=
  match payload with
  | Option.none => HandlerOutput.mk 400 no_payload_body []
  | some p =>
    if truthy p = false then HandlerOutput.mk 400 no_payload_body []
    else
      match process_message p with
      | Option.none => HandlerOutput.mk 200 ignored_body []
      | some message_content =>
        let extracted := extract_user_data_with_ai parse (ai message_content)
        match sheetsInit with
        | Except.error e =>
          HandlerOutput.mk 200
            (success_body message_content false extracted (some e))
            [Call.ai message_content, Call.store]
        | Except.ok sheet =>
          match insert_user_data sheet extracted Option.none t with
          | Except.error e =>
            HandlerOutput.mk 200
              (success_body message_content false extracted (some e))
              [Call.ai message_content, Call.store]
          | Except.ok (saved, _) =>
            HandlerOutput.mk 200
              (success_body message_content saved extracted Option.none)
              [Call.ai message_content, Call.store]

/-! ## Helper lemmas -/

theorem pyEqStr_eq_true {v : PyVal} {s : String} (h : pyEqStr v s = true) :
    v = PyVal.str s := by
  cases v <;> simp [pyEqStr] at h
  exact congrArg PyVal.str h

theorem dictGet_of_find_some {kvs : List (String × PyVal)} {k : String}
    {v : PyVal} (h : dictFind kvs k = some v) : dictGet kvs k = v := by
  simp [dictGet, h]

theorem find_some_of_dictGet_ne_none {kvs : List (String × PyVal)}
    {k : String} (h : dictGet kvs k ≠ PyVal.none) :
    dictFind kvs k = some (dictGet kvs k) := by
  unfold dictGet at *
  cases hf : dictFind kvs k with
  | none => simp [hf] at h
  | some v => simp [hf]

theorem renderField_ne_none (v : PyVal) : renderField v ≠ PyVal.none := by
  unfold renderField pyOr
  by_cases h : truthy v = true
  · simp [h]
    cases v <;> simp [truthy] at h ⊢
  · simp [h]

theorem renderField_none : renderField PyVal.none = PyVal.str "" := rfl

/-! ## Claim C1 -/

/-- The JSON text of a reply whose full_name is the empty string. -/
def jsonEmptyName : String := "\x7b\"full_name\": \"\"\x7d"

/-- The behaviour of json.loads on jsonEmptyName (and, for definiteness,
JSONDecodeError everywhere else): json.loads of an object literal whose
sole entry maps full_name to the empty string. -/
def cexParse : String → Option PyVal := fun s =>
  if s = jsonEmptyName then some (PyVal.dict [("full_name", PyVal.str "")])
  else Option.none

/-- C1 counterexample: when the AI reply is the well-formed JSON object
mapping full_name to the empty string, extract passes the empty string
through, so the returned value under full_name is neither a non-empty
string nor the unknown marker — the claim as stated is false. -/
theorem extract_empty_string_value_cex :
    dictGet (extract_user_data_with_ai cexParse (AIOutcome.reply jsonEmptyName))
        "full_name" = PyVal.str "" ∧
      nonEmptyStrOrNull (PyVal.str "") = false :=
  ⟨rfl, rfl⟩

/-- Every value of the default result is the unknown marker. -/
theorem default_response_values {k : String} {v : PyVal}
    (h : (k, v) ∈ default_response) : v = PyVal.none := by
  simp [default_response] at h
  rcases h with ⟨-, rfl⟩ | ⟨-, rfl⟩ | ⟨-, rfl⟩ <;> rfl

/-- extract on a reply whose stripped text fails to parse. -/
theorem extract_reply_parse_fail {parse : String → Option PyVal}
    {text : String} (hp : parse (pyStrip text) = Option.none) :
    extract_user_data_with_ai parse (AIOutcome.reply text) =
      default_response := by
  simp only [extract_user_data_with_ai, hp]

/-- extract on a reply that parses to a JSON object. -/
theorem extract_reply_parse_dict {parse : String → Option PyVal}
    {text : String} {kvs : List (String × PyVal)}
    (hp : parse (pyStrip text) = some (PyVal.dict kvs)) :
    extract_user_data_with_ai parse (AIOutcome.reply text) =
      [("full_name", dictGet kvs "full_name"),
       ("phone_number", dictGet kvs "phone_number"),
       ("id_document", dictGet kvs "id_document")] := by
  simp only [extract_user_data_with_ai, hp]

/-- extract on a reply that parses to a non-object JSON value: the .get
call raises AttributeError and the outer handler returns the default. -/
theorem extract_reply_parse_nondict {parse : String → Option PyVal}
    {text : String} {pv : PyVal} (hp : parse (pyStrip text) = some pv)
    (hnd : ∀ kvs, pv ≠ PyVal.dict kvs) :
    extract_user_data_with_ai parse (AIOutcome.reply text) =
      default_response := by
  cases pv with
  | dict kvs => exact absurd rfl (hnd kvs)
  | none => simp only [extract_user_data_with_ai, hp]
  | bool b => simp only [extract_user_data_with_ai, hp]
  | int n => simp only [extract_user_data_with_ai, hp]
  | str s => simp only [extract_user_data_with_ai, hp]
  | list xs => simp only [extract_user_data_with_ai, hp]

/-- C1 (amended): for every input text and every possible AI reply,
extract returns an object with exactly the three keys full_name,
phone_number, id_document, and each value is either the unknown marker
(null) or the value the parsed reply held under that key, passed through
verbatim (which may be an empty string or a non-string JSON value). -/
theorem extract_keys_exact_values_verbatim (parse : String → Option PyVal)
    (o : AIOutcome) :
    resultKeys (extract_user_data_with_ai parse o) =
        ["full_name", "phone_number", "id_document"] ∧
      ∀ k v, (k, v) ∈ extract_user_data_with_ai parse o →
        v = PyVal.none ∨ ∃ text kvs, o = AIOutcome.reply text ∧
          parse (pyStrip text) = some (PyVal.dict kvs) ∧
          dictFind kvs k = some v := by
  cases o with
  | failure => exact ⟨rfl, fun k v h => Or.inl (default_response_values h)⟩
  | reply text =>
    cases hp : parse (pyStrip text) with
    | none =>
      rw [extract_reply_parse_fail hp]
      exact ⟨rfl, fun k v h => Or.inl (default_response_values h)⟩
    | some pv =>
      cases pv with
      | dict kvs =>
        rw [extract_reply_parse_dict hp]
        refine ⟨rfl, ?_⟩
        intro k v h
        simp only [List.mem_cons, List.not_mem_nil, or_false,
          Prod.mk.injEq] at h
        rcases h with ⟨rfl, rfl⟩ | ⟨rfl, rfl⟩ | ⟨rfl, rfl⟩
        · cases hf : dictFind kvs "full_name" with
          | none => exact Or.inl (by simp [dictGet, hf])
          | some u =>
            refine Or.inr ⟨text, kvs, rfl, hp, ?_⟩
            rw [dictGet_of_find_some hf]
            exact hf
        · cases hf : dictFind kvs "phone_number" with
          | none => exact Or.inl (by simp [dictGet, hf])
          | some u =>
            refine Or.inr ⟨text, kvs, rfl, hp, ?_⟩
            rw [dictGet_of_find_some hf]
            exact hf
        · cases hf : dictFind kvs "id_document" with
          | none => exact Or.inl (by simp [dictGet, hf])
          | some u =>
            refine Or.inr ⟨text, kvs, rfl, hp, ?_⟩
            rw [dictGet_of_find_some hf]
            exact hf
      | none =>
        rw [extract_reply_parse_nondict hp (fun kvs h => by cases h)]
        exact ⟨rfl, fun k v h => Or.inl (default_response_values h)⟩
      | bool b =>
        rw [extract_reply_parse_nondict hp (fun kvs h => by cases h)]
        exact ⟨rfl, fun k v h => Or.inl (default_response_values h)⟩
      | int n =>
        rw [extract_reply_parse_nondict hp (fun kvs h => by cases h)]
        exact ⟨rfl, fun k v h => Or.inl (default_response_values h)⟩
      | str s =>
        rw [extract_reply_parse_nondict hp (fun kvs h => by cases h)]
        exact ⟨rfl, fun k v h => Or.inl (default_response_values h)⟩
      | list xs =>
        rw [extract_reply_parse_nondict hp (fun kvs h => by cases h)]
        exact ⟨rfl, fun k v h => Or.inl (default_response_values h)⟩

/-- Witness for the amended C1, at the all-unknown default produced by an
AI failure. -/
theorem extract_keys_exact_values_verbatim_witness :
    PyVal.none = PyVal.none ∨ ∃ text kvs,
      AIOutcome.failure = AIOutcome.reply text ∧
      cexParse (pyStrip text) = some (PyVal.dict kvs) ∧
      dictFind kvs "full_name" = some PyVal.none :=
  (extract_keys_exact_values_verbatim cexParse AIOutcome.failure).2
    "full_name" PyVal.none (List.Mem.head _)

/-! ## Claim C3 -/

/-- C3: extract never raises: the AI-capability failure outcome and every
reply whose stripped text fails JSON parsing both yield the all-unknown
default result (whose three values are all the unknown marker), rather
than an exception. In the embedding the function is total, so the two
failure equations are the whole content of the claim. -/
theorem extract_failure_returns_default (parse : String → Option PyVal)
    (text : String) :
    extract_user_data_with_ai parse AIOutcome.failure = default_response ∧
      (parse (pyStrip text) = Option.none →
        extract_user_data_with_ai parse (AIOutcome.reply text) =
          default_response) ∧
      ∀ k v, (k, v) ∈ default_response → v = PyVal.none := by
  exact ⟨rfl, fun hp => extract_reply_parse_fail hp,
    fun k v h => default_response_values h⟩

/-- Witness for C3: a parse function that always fails, applied to a
concrete reply text. -/
theorem extract_failure_returns_default_witness :
    extract_user_data_with_ai (fun _ => Option.none)
      (AIOutcome.reply "I cannot help with that") = default_response :=
  ((extract_failure_returns_default (fun _ => Option.none)
    "I cannot help with that").2).1 rfl

/-! ## Claim C10 -/

/-- C10: validate_extracted_data returns true exactly when its argument
is a dict containing all three keys full_name, phone_number and
id_document, whatever the values stored under them. -/
theorem validate_extracted_data_iff (v : PyVal) :
    validate_extracted_data v = true ↔
      ∃ kvs, v = PyVal.dict kvs ∧
        (dictFind kvs "full_name").isSome = true ∧
        (dictFind kvs "phone_number").isSome = true ∧
        (dictFind kvs "id_document").isSome = true := by
  cases v with
  | dict kvs =>
    simp only [validate_extracted_data, Bool.and_eq_true]
    constructor
    · rintro ⟨⟨h1, h2⟩, h3⟩
      exact ⟨kvs, rfl, h1, h2, h3⟩
    · rintro ⟨kvs2, heq, h1, h2, h3⟩
      cases heq
      exact ⟨⟨h1, h2⟩, h3⟩
  | none => simp [validate_extracted_data]
  | bool b => simp [validate_extracted_data]
  | int n => simp [validate_extracted_data]
  | str s => simp [validate_extracted_data]
  | list xs => simp [validate_extracted_data]

/-! ## Gateway lemmas -/

/-- Total number of rows stored across the worksheets. -/
def totalRowsList : List (String × Worksheet) → Nat
  | [] => 0
  | x :: xs => x.2.rows.length + totalRowsList xs

theorem findTitleIdx_some_nthWs {l : List (String × Worksheet)}
    {tt : String} {i : Nat} (h : findTitleIdx l tt = some i) :
    ∃ w, nthWs l i = some w := by
  induction l generalizing i with
  | nil => simp [findTitleIdx] at h
  | cons x xs ih =>
    by_cases hx : x.1 = tt
    · have : findTitleIdx (x :: xs) tt = some 0 := by
        cases x with
        | mk n w => simp only [findTitleIdx] at *; simp [hx]
      rw [this] at h
      cases h
      exact ⟨x.2, rfl⟩
    · cases x with
      | mk n w =>
        simp only [findTitleIdx, hx, if_neg hx] at h
        cases hr : findTitleIdx xs tt with
        | none => rw [hr] at h; simp at h
        | some j =>
          rw [hr] at h
          simp at h
          obtain ⟨w2, hw2⟩ := ih hr
          cases h
          exact ⟨w2, hw2⟩

theorem get_worksheet_ok_nthWs {s : Spreadsheet} {title : Option String}
    {i : Nat} (h : get_worksheet s title = Except.ok i) :
    ∃ w, nthWs s.worksheets i = some w := by
  cases title with
  | some tt =>
    simp only [get_worksheet] at h
    cases hf : findTitleIdx s.worksheets tt with
    | none => rw [hf] at h; cases h
    | some j =>
      rw [hf] at h
      cases h
      exact findTitleIdx_some_nthWs hf
  | none =>
    simp only [get_worksheet] at h
    by_cases he : s.worksheets.isEmpty
    · rw [if_pos he] at h; cases h
    · rw [if_neg he] at h
      cases h
      cases hl : s.worksheets with
      | nil => rw [hl] at he; simp at he
      | cons x xs => exact ⟨x.2, rfl⟩

theorem nthWs_updateAt_self {l : List (String × Worksheet)} {i : Nat}
    {w : Worksheet} (f : Worksheet → Worksheet) (h : nthWs l i = some w) :
    nthWs (updateAt l i f) i = some (f w) := by
  induction l generalizing i with
  | nil => simp [nthWs] at h
  | cons x xs ih =>
    cases i with
    | zero =>
      simp only [nthWs] at h
      cases h
      rfl
    | succ n => exact ih h

theorem totalRowsList_updateAt_append {l : List (String × Worksheet)}
    {i : Nat} {w : Worksheet} (row : List PyVal)
    (h : nthWs l i = some w) :
    totalRowsList (updateAt l i (appendRow row)) = totalRowsList l + 1 := by
  induction l generalizing i with
  | nil => simp [nthWs] at h
  | cons x xs ih =>
    cases i with
    | zero =>
      simp only [nthWs] at h
      cases h
      simp only [updateAt, totalRowsList, appendRow, List.length_append,
        List.length_singleton]
      omega
    | succ n =>
      simp only [updateAt, totalRowsList, ih h]
      omega

theorem findTitleIdx_updateAt (l : List (String × Worksheet)) (i : Nat)
    (f : Worksheet → Worksheet) (tt : String) :
    findTitleIdx (updateAt l i f) tt = findTitleIdx l tt := by
  induction l generalizing i with
  | nil => rfl
  | cons x xs ih =>
    cases i with
    | zero => cases x with | mk n w => rfl
    | succ n =>
      cases x with
      | mk nm w =>
        simp only [updateAt, findTitleIdx, ih]

theorem updateAt_isEmpty (l : List (String × Worksheet)) (i : Nat)
    (f : Worksheet → Worksheet) :
    (updateAt l i f).isEmpty = l.isEmpty := by
  cases l with
  | nil => rfl
  | cons x xs => cases i <;> rfl

theorem get_worksheet_updateAt (nm : String)
    (l : List (String × Worksheet)) (i : Nat) (f : Worksheet → Worksheet)
    (title : Option String) :
    get_worksheet (Spreadsheet.mk nm (updateAt l i f)) title =
      get_worksheet (Spreadsheet.mk nm l) title := by
  cases title with
  | some tt => simp only [get_worksheet, findTitleIdx_updateAt]
  | none => simp only [get_worksheet, updateAt_isEmpty]

theorem updateAt_fix {l : List (String × Worksheet)} {i : Nat}
    {w : Worksheet} (f : Worksheet → Worksheet) (h : nthWs l i = some w)
    (hf : f w = w) : updateAt l i f = l := by
  induction l generalizing i with
  | nil => rfl
  | cons x xs ih =>
    cases i with
    | zero =>
      simp only [nthWs] at h
      cases h
      simp only [updateAt, hf]
    | succ n => simp only [updateAt, ih h]

/-- insert_user_data on a no-signal result: skip, no state change. -/
theorem insert_user_data_skip {data : List (String × PyVal)}
    (s : Spreadsheet) (title : Option String) (t : DateTime)
    (h : anySignal data = false) :
    insert_user_data s data title t = Except.ok (false, s) := by
  simp [insert_user_data, h]

/-- insert_user_data on a result with signal and a resolvable worksheet:
append the built row there. -/
theorem insert_user_data_append {data : List (String × PyVal)}
    {s : Spreadsheet} {title : Option String} {i : Nat} (t : DateTime)
    (h : anySignal data = true) (hgw : get_worksheet s title = Except.ok i) :
    insert_user_data s data title t = Except.ok (true,
      Spreadsheet.mk s.name (updateAt s.worksheets i
        (appendRow (buildRow t (dictGet data "full_name")
          (dictGet data "phone_number") (dictGet data "id_document"))))) := by
  simp [insert_user_data, h, hgw]

/-! ## Claim C2 -/

/-- A spreadsheet with one untitled-lookup worksheet holding no rows. -/
def demoSheet : Spreadsheet := Spreadsheet.mk "S" [("Hoja 1", Worksheet.mk [])]

/-- A concrete wall-clock instant. -/
def demoTime : DateTime := DateTime.mk 2026 10 12 9 5 3

/-- An extraction result whose full_name is the empty string and whose
other fields are the unknown marker. -/
def cexEmptyStrData : List (String × PyVal) :=
  [("full_name", PyVal.str ""), ("phone_number", PyVal.none),
   ("id_document", PyVal.none)]

/-- C2 counterexample: full_name holds the empty string, a value that is
not the unknown marker, yet persist skips (returns False with the store
unchanged) because the code tests Python truthiness, not is-None — the
claim as stated is false for this ExtractionResult. -/
theorem insert_skips_empty_string_field_cex :
    insert_user_data demoSheet cexEmptyStrData Option.none demoTime =
        Except.ok (false, demoSheet) ∧
      dictGet cexEmptyStrData "full_name" ≠ PyVal.none :=
  ⟨rfl, fun h => PyVal.noConfusion h⟩

/-- C2 (amended): persist returns Skipped and performs no append exactly
when all three fields are falsy under Python truthiness (the unknown
marker, the empty string, zero, false, or an empty container), and —
provided the target worksheet resolves — returns Persisted having
appended exactly one row whenever at least one field is truthy. -/
theorem insert_skip_iff_no_truthy_field (s : Spreadsheet)
    (data : List (String × PyVal)) (title : Option String) (t : DateTime) :
    (anySignal data = false →
      insert_user_data s data title t = Except.ok (false, s)) ∧
    (anySignal data = true → ∀ i, get_worksheet s title = Except.ok i →
      ∃ s', insert_user_data s data title t = Except.ok (true, s') ∧
        totalRowsList s'.worksheets = totalRowsList s.worksheets + 1) := by
  constructor
  · intro h
    exact insert_user_data_skip s title t h
  · intro h i hgw
    obtain ⟨w, hw⟩ := get_worksheet_ok_nthWs hgw
    refine ⟨_, insert_user_data_append t h hgw, ?_⟩
    exact totalRowsList_updateAt_append _ hw

/-- An extraction result carrying signal in two fields. -/
def goodData : List (String × PyVal) :=
  [("full_name", PyVal.str "Jane Doe"), ("phone_number", PyVal.none),
   ("id_document", PyVal.str "12345678")]

/-- Witness for the amended C2: a result with signal is persisted into
the demo spreadsheet, growing it by exactly one row. -/
theorem insert_skip_iff_no_truthy_field_witness :
    ∃ s', insert_user_data demoSheet goodData Option.none demoTime =
        Except.ok (true, s') ∧
      totalRowsList s'.worksheets = totalRowsList demoSheet.worksheets + 1 :=
  (insert_skip_iff_no_truthy_field demoSheet goodData Option.none
    demoTime).2 rfl 0 rfl

/-! ## Claim C9 -/

/-- C9: when all three fields carry no signal, persist skips before any
worksheet resolution: even against a worksheet name that does not resolve
(get_worksheet raises), the skip path returns cleanly with the store
untouched. -/
theorem insert_skip_no_store_interaction (s : Spreadsheet)
    (data : List (String × PyVal)) (title : Option String) (t : DateTime)
    (e : String) (h : anySignal data = false)
    (_hbad : get_worksheet s title = Except.error e) :
    insert_user_data s data title t = Except.ok (false, s) :=
  insert_user_data_skip s title t h

/-- An all-unknown extraction result. -/
def allNullData : List (String × PyVal) :=
  [("full_name", PyVal.none), ("phone_number", PyVal.none),
   ("id_document", PyVal.none)]

/-- Witness for C9: skipping succeeds against a worksheet title that is
absent from the spreadsheet. -/
theorem insert_skip_no_store_interaction_witness :
    insert_user_data demoSheet allNullData (some "NoSuchSheet") demoTime =
      Except.ok (false, demoSheet) :=
  insert_skip_no_store_interaction demoSheet allNullData
    (some "NoSuchSheet") demoTime
    (wsNotFoundMsg (some "NoSuchSheet") "S") rfl rfl

/-! ## Claim C5 -/

theorem toString_nat_length_one {n : Nat} (h : n < 10) :
    (toString n).length = 1 := by
  interval_cases n <;> rfl

theorem toString_nat_length_two {n : Nat} (h10 : 10 ≤ n) (h : n < 100) :
    (toString n).length = 2 := by
  interval_cases n <;> rfl

theorem pad2_length {n : Nat} (h : n < 100) : (pad2 n).length = 2 := by
  unfold pad2
  by_cases h10 : n < 10
  · rw [if_pos h10, String.length_append, toString_nat_length_one h10]
    decide
  · rw [if_neg h10, toString_nat_length_two (Nat.le_of_not_lt h10) h]

theorem pad4_length {n : Nat} (h : n < 10000) : (pad4 n).length = 4 := by
  unfold pad4
  rw [String.length_append, pad2_length (by omega : n / 100 < 100),
    pad2_length (Nat.mod_lt n (by norm_num))]

/-- The timestamp string has the fixed 19-character YYYY-MM-DD HH:MM:SS
shape whenever the clock components are in their calendar ranges. -/
theorem strftime_length {t : DateTime} (hy : t.year < 10000)
    (hmo : t.month < 100) (hd : t.day < 100) (hh : t.hour < 100)
    (hmi : t.minute < 100) (hs : t.second < 100) :
    (strftime_ymd_hms t).length = 19 := by
  unfold strftime_ymd_hms
  rw [String.length_append, String.length_append, String.length_append,
    String.length_append, String.length_append, String.length_append,
    String.length_append, String.length_append, String.length_append,
    String.length_append]
  rw [pad4_length hy, pad2_length hmo, pad2_length hd, pad2_length hh,
    pad2_length hmi, pad2_length hs]
  rfl

/-- C5: every row that persist appends has exactly four cells — the
current local timestamp in the YYYY-MM-DD HH:MM:SS shape, then the three
fields in order full name, phone number, id document — and an unknown
field is rendered as the empty string, which is never the literal word
unknown and never null; no appended cell is null at all. -/
theorem insert_row_shape (s s' : Spreadsheet) (data : List (String × PyVal))
    (title : Option String) (t : DateTime) (hy : t.year < 10000)
    (hmo : t.month < 100) (hd : t.day < 100) (hh : t.hour < 100)
    (hmi : t.minute < 100) (hs : t.second < 100)
    (h : insert_user_data s data title t = Except.ok (true, s')) :
    ∃ i w, get_worksheet s title = Except.ok i ∧
      nthWs s.worksheets i = some w ∧
      nthWs s'.worksheets i = some (appendRow (buildRow t
        (dictGet data "full_name") (dictGet data "phone_number")
        (dictGet data "id_document")) w) ∧
      (buildRow t (dictGet data "full_name") (dictGet data "phone_number")
        (dictGet data "id_document")).length = 4 ∧
      (buildRow t (dictGet data "full_name") (dictGet data "phone_number")
        (dictGet data "id_document")).head? =
        some (PyVal.str (strftime_ymd_hms t)) ∧
      (strftime_ymd_hms t).length = 19 ∧
      (∀ v, v = PyVal.none → renderField v = PyVal.str "") ∧
      (∀ v, renderField v ≠ PyVal.none) ∧
      renderField PyVal.none ≠ PyVal.str "unknown" := by
  cases ha : anySignal data with
  | false =>
    rw [insert_user_data_skip s title t ha] at h
    cases h
  | true =>
    cases hgw : get_worksheet s title with
    | error e =>
      simp [insert_user_data, ha, hgw] at h
    | ok i =>
      rw [insert_user_data_append t ha hgw] at h
      obtain ⟨w, hw⟩ := get_worksheet_ok_nthWs hgw
      cases h
      refine ⟨i, w, rfl, hw, nthWs_updateAt_self _ hw, rfl, rfl,
        strftime_length hy hmo hd hh hmi hs, ?_, renderField_ne_none, ?_⟩
      · intro v hv
        cases hv
        rfl
      · rw [renderField_none]
        intro hcon
        injection hcon with hstr
        exact absurd hstr (by decide)

/-- Witness for C5: persisting the concrete signal-carrying result at the
concrete instant appends the expected four-cell row. -/
theorem insert_row_shape_witness :
    ∃ i w, get_worksheet demoSheet Option.none = Except.ok i ∧
      nthWs demoSheet.worksheets i = some w ∧
      nthWs (Spreadsheet.mk "S" [("Hoja 1", Worksheet.mk
        [[PyVal.str "2026-10-12 09:05:03", PyVal.str "Jane Doe",
          PyVal.str "", PyVal.str "12345678"]])]).worksheets i =
        some (appendRow (buildRow demoTime
          (dictGet goodData "full_name") (dictGet goodData "phone_number")
          (dictGet goodData "id_document")) w) ∧
      (buildRow demoTime (dictGet goodData "full_name")
        (dictGet goodData "phone_number")
        (dictGet goodData "id_document")).length = 4 ∧
      (buildRow demoTime (dictGet goodData "full_name")
        (dictGet goodData "phone_number")
        (dictGet goodData "id_document")).head? =
        some (PyVal.str (strftime_ymd_hms demoTime)) ∧
      (strftime_ymd_hms demoTime).length = 19 ∧
      (∀ v, v = PyVal.none → renderField v = PyVal.str "") ∧
      (∀ v, renderField v ≠ PyVal.none) ∧
      renderField PyVal.none ≠ PyVal.str "unknown" :=
  insert_row_shape demoSheet _ goodData Option.none demoTime
    (by decide) (by decide) (by decide) (by decide) (by decide) (by decide)
    rfl

/-! ## Claim C7 -/

/-- setup_worksheet_headers when the worksheet resolves. -/
theorem setup_headers_resolved {s : Spreadsheet} {title : Option String}
    {i : Nat} (hgw : get_worksheet s title = Except.ok i) :
    setup_worksheet_headers s title =
      Except.ok (Spreadsheet.mk s.name (updateAt s.worksheets i setup_ws)) := by
  simp [setup_worksheet_headers, hgw]

/-- After setup_ws the first row always has content. -/
theorem setup_ws_nonempty_first (w : Worksheet) :
    (row_values1 (setup_ws w)).isEmpty = false := by
  unfold setup_ws
  by_cases h : (row_values1 w).isEmpty = true
  · rw [if_pos h]
    rfl
  · rw [if_neg h]
    cases hb : (row_values1 w).isEmpty with
    | false => rfl
    | true => exact absurd hb h

/-- setup_ws does nothing when the first row has content. -/
theorem setup_ws_noop {w : Worksheet}
    (h : (row_values1 w).isEmpty = false) : setup_ws w = w := by
  unfold setup_ws
  rw [h]
  simp

/-- setup_ws is idempotent on a single worksheet. -/
theorem setup_ws_idem (w : Worksheet) : setup_ws (setup_ws w) = setup_ws w :=
  setup_ws_noop (setup_ws_nonempty_first w)

/-- The first worksheet of foreignSheet: a first row with foreign
content. -/
def foreignWs : Worksheet := Worksheet.mk [[PyVal.str "x"]]

/-- A spreadsheet whose only worksheet already has a non-header first
row. -/
def foreignSheet : Spreadsheet := Spreadsheet.mk "S" [("Hoja 1", foreignWs)]

/-- C7 counterexample: on a worksheet whose first row already holds
foreign content, setupHeaders is a no-op, so after running it (once or
twice) the first row does not hold the header — the final clause of the
claim, read over every starting state, is false. -/
theorem setup_headers_keeps_foreign_first_row_cex :
    setup_worksheet_headers foreignSheet Option.none =
        Except.ok foreignSheet ∧
      row_values1 foreignWs ≠ headers := by
  refine ⟨rfl, ?_⟩
  intro h
  exact absurd (congrArg List.length h) (by decide)

/-- C7 (amended): setupHeaders is idempotent — if the worksheet's first
row already has any content it performs no write, so running it twice
from any starting state leaves the worksheet as running it once; and when
the first row is initially empty, after running, the first row holds the
header Timestamp, Full Name, Phone Number, ID Document (an existing
non-empty first row is left as-is even when it differs from the
header). -/
theorem setup_headers_idempotent (s s1 : Spreadsheet) (title : Option String)
    (h : setup_worksheet_headers s title = Except.ok s1) :
    setup_worksheet_headers s1 title = Except.ok s1 ∧
      ∀ i w, get_worksheet s title = Except.ok i →
        nthWs s.worksheets i = some w → (row_values1 w).isEmpty = true →
        ∃ w1, nthWs s1.worksheets i = some w1 ∧ row_values1 w1 = headers := by
  cases hgw : get_worksheet s title with
  | error e => simp [setup_worksheet_headers, hgw] at h
  | ok i0 =>
    rw [setup_headers_resolved hgw] at h
    cases h
    obtain ⟨w, hw⟩ := get_worksheet_ok_nthWs hgw
    constructor
    · have hgw1 : get_worksheet
          (Spreadsheet.mk s.name (updateAt s.worksheets i0 setup_ws)) title =
          Except.ok i0 := by
        rw [get_worksheet_updateAt]
        exact hgw
      rw [setup_headers_resolved hgw1]
      have hw1 : nthWs (updateAt s.worksheets i0 setup_ws) i0 =
          some (setup_ws w) := nthWs_updateAt_self _ hw
      rw [updateAt_fix setup_ws hw1 (setup_ws_idem w)]
    · intro i w2 hgw2 hw2 hempty
      cases hgw2
      rw [hw] at hw2
      cases hw2
      refine ⟨setup_ws w, nthWs_updateAt_self _ hw, ?_⟩
      simp only [setup_ws, row_values1] at hempty ⊢
      rw [if_pos hempty]
      rfl

/-- A spreadsheet whose only worksheet has no rows yet. -/
def blankSheet : Spreadsheet := Spreadsheet.mk "S" [("Hoja 1", Worksheet.mk [])]

/-- Witness for the amended C7: provisioning a blank worksheet installs
the header, and running setupHeaders again changes nothing. -/
theorem setup_headers_idempotent_witness :
    setup_worksheet_headers
        (Spreadsheet.mk "S" [("Hoja 1", Worksheet.mk [headers])])
        Option.none =
      Except.ok (Spreadsheet.mk "S" [("Hoja 1", Worksheet.mk [headers])]) ∧
    ∃ w1, nthWs (Spreadsheet.mk "S"
        [("Hoja 1", Worksheet.mk [headers])]).worksheets 0 = some w1 ∧
      row_values1 w1 = headers :=
  have hmain := setup_headers_idempotent blankSheet
    (Spreadsheet.mk "S" [("Hoja 1", Worksheet.mk [headers])]) Option.none rfl
  ⟨hmain.1, hmain.2 0 (Worksheet.mk []) rfl rfl rfl⟩

/-! ## Claim C4 -/

theorem isPyNone_eq_false {v : PyVal} (h : v ≠ PyVal.none) :
    isPyNone v = false := by
  cases v with
  | none => exact absurd rfl h
  | bool b => rfl
  | int n => rfl
  | str s => rfl
  | list xs => rfl
  | dict kvs => rfl

theorem isPyNone_true_iff {v : PyVal} : isPyNone v = true ↔ v = PyVal.none := by
  cases v <;> simp [isPyNone]

/-- The run of process_message on a fully qualifying event: the
conversation value is returned as-is. -/
theorem process_message_of_qualifying
    (p d k m : List (String × PyVal)) (v : PyVal)
    (hdata : dictFind p "data" = some (PyVal.dict d))
    (hkey : dictFind d "key" = some (PyVal.dict k))
    (hmsg : dictFind d "message" = some (PyVal.dict m))
    (hjid : dictFind k "remoteJid" = some (PyVal.str target_group_id))
    (hlid : dictGet k "participantLid" ≠ PyVal.none)
    (hconv : dictFind m "conversation" = some v) (hv : v ≠ PyVal.none) :
    process_message (PyVal.dict p) = some v := by
  have e1 : pyGetD (PyVal.dict p) "data" (PyVal.dict []) =
      Except.ok (PyVal.dict d) := by simp [pyGetD, hdata]
  have e2 : pyGetD (PyVal.dict d) "key" (PyVal.dict []) =
      Except.ok (PyVal.dict k) := by simp [pyGetD, hkey]
  have e3 : pyGetD (PyVal.dict d) "message" (PyVal.dict []) =
      Except.ok (PyVal.dict m) := by simp [pyGetD, hmsg]
  have e4 : pyGet (PyVal.dict k) "remoteJid" =
      Except.ok (PyVal.str target_group_id) := by
    simp [pyGet, dictGet, hjid]
  have e5 : pyGet (PyVal.dict k) "participantLid" =
      Except.ok (dictGet k "participantLid") := rfl
  have e6 : pyGet (PyVal.dict m) "conversation" = Except.ok v := by
    simp [pyGet, dictGet, hconv]
  simp only [process_message, process_message_body, e1, e2, e3, e4, e5, e6,
    isPyNone_eq_false hlid, isPyNone_eq_false hv, pyEqStr]
  simp

/-- C4: for every event whose data.key.remoteJid equals the configured
target channel identifier, whose data.key.participantLid is present (the
accessor yields a non-null value, the spec's notion of presence in §4.1
step 2), and whose data.message.conversation is present with text T,
process_message returns exactly T. -/
theorem process_message_qualifying_returns_conversation
    (p d k m : List (String × PyVal)) (T : String)
    (hdata : dictFind p "data" = some (PyVal.dict d))
    (hkey : dictFind d "key" = some (PyVal.dict k))
    (hmsg : dictFind d "message" = some (PyVal.dict m))
    (hjid : dictFind k "remoteJid" = some (PyVal.str target_group_id))
    (hlid : dictGet k "participantLid" ≠ PyVal.none)
    (hconv : dictFind m "conversation" = some (PyVal.str T)) :
    process_message (PyVal.dict p) = some (PyVal.str T) :=
  process_message_of_qualifying p d k m (PyVal.str T) hdata hkey hmsg hjid
    hlid hconv (fun h => PyVal.noConfusion h)

/-- A concrete qualifying event payload. -/
def qualifyingPayload : PyVal :=
  PyVal.dict [("data", PyVal.dict
    [("key", PyVal.dict
      [("remoteJid", PyVal.str target_group_id),
       ("participantLid", PyVal.str "123")]),
     ("message", PyVal.dict [("conversation", PyVal.str "hola")])])]

/-- Witness for C4: the concrete qualifying payload yields its
conversation text. -/
theorem process_message_qualifying_returns_conversation_witness :
    process_message qualifyingPayload = some (PyVal.str "hola") :=
  process_message_qualifying_returns_conversation
    [("data", PyVal.dict
      [("key", PyVal.dict
        [("remoteJid", PyVal.str target_group_id),
         ("participantLid", PyVal.str "123")]),
       ("message", PyVal.dict [("conversation", PyVal.str "hola")])])]
    [("key", PyVal.dict
      [("remoteJid", PyVal.str target_group_id),
       ("participantLid", PyVal.str "123")]),
     ("message", PyVal.dict [("conversation", PyVal.str "hola")])]
    [("remoteJid", PyVal.str target_group_id),
     ("participantLid", PyVal.str "123")]
    [("conversation", PyVal.str "hola")]
    "hola" rfl rfl rfl rfl (fun h => PyVal.noConfusion h) rfl

/-! ## Claim C8 -/

/-- C8: process_message is total and never raises: for every payload
whatsoever — including non-dict payloads and payloads whose data, key or
message entries are present but not objects — it returns either the
NotQualifying outcome (None) or the conversation value of a fully
qualifying event (never the null value); in the embedding the function is
total and every exception raised inside the try block is absorbed into
the None outcome. -/
theorem process_message_total_characterization (payload : PyVal) :
    process_message payload = Option.none ∨
      ∃ p d k m v, payload = PyVal.dict p ∧
        dictFind p "data" = some (PyVal.dict d) ∧
        dictFind d "key" = some (PyVal.dict k) ∧
        dictFind d "message" = some (PyVal.dict m) ∧
        dictFind k "remoteJid" = some (PyVal.str target_group_id) ∧
        dictGet k "participantLid" ≠ PyVal.none ∧
        dictFind m "conversation" = some v ∧ v ≠ PyVal.none ∧
        process_message payload = some v := by
  cases payload with
  | none => exact Or.inl rfl
  | bool b => exact Or.inl rfl
  | int n => exact Or.inl rfl
  | str s => exact Or.inl rfl
  | list xs => exact Or.inl rfl
  | dict p =>
    cases h1 : dictFind p "data" with
    | none =>
      exact Or.inl (by simp [process_message, process_message_body, pyGetD,
        pyGet, dictGet, dictFind, h1, pyEqStr])
    | some dv =>
      cases dv with
      | none =>
        exact Or.inl (by simp [process_message, process_message_body,
          pyGetD, h1])
      | bool b =>
        exact Or.inl (by simp [process_message, process_message_body,
          pyGetD, h1])
      | int n =>
        exact Or.inl (by simp [process_message, process_message_body,
          pyGetD, h1])
      | str s =>
        exact Or.inl (by simp [process_message, process_message_body,
          pyGetD, h1])
      | list xs =>
        exact Or.inl (by simp [process_message, process_message_body,
          pyGetD, h1])
      | dict d =>
        cases h2 : dictFind d "key" with
        | none =>
          exact Or.inl (by simp [process_message, process_message_body,
            pyGetD, pyGet, dictGet, dictFind, h1, h2, pyEqStr])
        | some kv =>
          cases kv with
          | none =>
            exact Or.inl (by simp [process_message, process_message_body,
              pyGetD, pyGet, h1, h2])
          | bool b =>
            exact Or.inl (by simp [process_message, process_message_body,
              pyGetD, pyGet, h1, h2])
          | int n =>
            exact Or.inl (by simp [process_message, process_message_body,
              pyGetD, pyGet, h1, h2])
          | str s =>
            exact Or.inl (by simp [process_message, process_message_body,
              pyGetD, pyGet, h1, h2])
          | list xs =>
            exact Or.inl (by simp [process_message, process_message_body,
              pyGetD, pyGet, h1, h2])
          | dict k =>
            by_cases hjid : pyEqStr (dictGet k "remoteJid")
                target_group_id = true
            · have hjv : dictGet k "remoteJid" = PyVal.str target_group_id :=
                pyEqStr_eq_true hjid
              have hfj : dictFind k "remoteJid" =
                  some (PyVal.str target_group_id) := by
                have hne : dictGet k "remoteJid" ≠ PyVal.none := by
                  rw [hjv]
                  intro hc
                  exact PyVal.noConfusion hc
                have hf := find_some_of_dictGet_ne_none hne
                rw [hjv] at hf
                exact hf
              cases hlid : isPyNone (dictGet k "participantLid") with
              | true =>
                exact Or.inl (by simp [process_message,
                  process_message_body, pyGetD, pyGet, h1, h2, hjid, hlid])
              | false =>
                have hlidne : dictGet k "participantLid" ≠ PyVal.none := by
                  intro hc
                  rw [hc] at hlid
                  simp [isPyNone] at hlid
                cases h3 : dictFind d "message" with
                | none =>
                  exact Or.inl (by simp [process_message,
                    process_message_body, pyGetD, pyGet, dictGet, dictFind,
                    h1, h2, h3, hjid, hlid, isPyNone])
                | some mv =>
                  cases mv with
                  | none =>
                    exact Or.inl (by simp [process_message,
                      process_message_body, pyGetD, pyGet, h1, h2, h3,
                      hjid, hlid])
                  | bool b =>
                    exact Or.inl (by simp [process_message,
                      process_message_body, pyGetD, pyGet, h1, h2, h3,
                      hjid, hlid])
                  | int n =>
                    exact Or.inl (by simp [process_message,
                      process_message_body, pyGetD, pyGet, h1, h2, h3,
                      hjid, hlid])
                  | str s =>
                    exact Or.inl (by simp [process_message,
                      process_message_body, pyGetD, pyGet, h1, h2, h3,
                      hjid, hlid])
                  | list xs =>
                    exact Or.inl (by simp [process_message,
                      process_message_body, pyGetD, pyGet, h1, h2, h3,
                      hjid, hlid])
                  | dict m =>
                    cases hconv : dictFind m "conversation" with
                    | none =>
                      exact Or.inl (by simp [process_message,
                        process_message_body, pyGetD, pyGet, dictGet, h1,
                        h2, h3, hconv, hjid, hlid, isPyNone])
                    | some v =>
                      cases hvn : isPyNone v with
                      | true =>
                        have hveq : v = PyVal.none := isPyNone_true_iff.mp hvn
                        exact Or.inl (by simp [process_message,
                          process_message_body, pyGetD, pyGet, dictGet, h1,
                          h2, h3, hconv, hveq, hjid, hlid, isPyNone])
                      | false =>
                        have hvne : v ≠ PyVal.none := by
                          intro hc
                          rw [hc] at hvn
                          simp [isPyNone] at hvn
                        exact Or.inr ⟨p, d, k, m, v, rfl, h1, h2, h3, hfj,
                          hlidne, hconv, hvne,
                          process_message_of_qualifying p d k m v h1 h2 h3
                            hfj hlidne hconv hvne⟩
            · have hjid0 : pyEqStr (dictGet k "remoteJid")
                  target_group_id = false := by
                cases hb : pyEqStr (dictGet k "remoteJid") target_group_id
                · rfl
                · exact absurd hb hjid
              exact Or.inl (by simp [process_message, process_message_body,
                pyGetD, pyGet, h1, h2, hjid0])

/-! ## Claim C6 -/

/-- C6: for every received event that fails validation (in particular any
event whose channel identifier does not match the configured target), the
handler performs no AI-capability call and no storage call — its call
trace is empty — and reports the ignored outcome: HTTP 200 with the fixed
does-not-meet-criteria body, whose saved_to_sheets flag is false. -/
theorem handler_ignored_no_calls (parse : String → Option PyVal)
    (ai : PyVal → AIOutcome) (sheetsInit : Except String Spreadsheet)
    (t : DateTime) (p : PyVal) (hp : truthy p = true)
    (hv : process_message p = Option.none) :
    webhook_handler parse ai sheetsInit t (some p) =
      HandlerOutput.mk 200 ignored_body [] ∧
      dictFind ignored_body "saved_to_sheets" = some (PyVal.bool false) := by
  constructor
  · simp [webhook_handler, hp, hv]
  · rfl

/-- An event from a channel other than the configured target. -/
def nonMatchingPayload : PyVal :=
  PyVal.dict [("data", PyVal.dict [("key", PyVal.dict
    [("remoteJid", PyVal.str "other@g.us")])])]

/-- Witness for C6: a concrete non-matching-channel event is ignored with
an empty call trace, whatever the AI and store would have done. -/
theorem handler_ignored_no_calls_witness :
    webhook_handler (fun _ => Option.none) (fun _ => AIOutcome.failure)
        (Except.error "no credentials") demoTime (some nonMatchingPayload) =
      HandlerOutput.mk 200 ignored_body [] ∧
      dictFind ignored_body "saved_to_sheets" = some (PyVal.bool false) :=
  handler_ignored_no_calls (fun _ => Option.none)
    (fun _ => AIOutcome.failure) (Except.error "no credentials") demoTime
    nonMatchingPayload rfl rfl

end WABot
